import Mathlib

/-!
Shallow embedding of the observability core of the Noverna-API repository:
the leveled logger (internal/logger/logger.go), the request-logging
middleware with its capture wrapper and redaction helpers
(internal/middleware/c_logger.go), and the log-level initialization step of
the configuration loader (internal/config/config.go).

Modelling conventions:
  - Go strings are Lean Strings (one Char per byte; all inputs of interest
    are ASCII).
  - Go int / int64 values are Lean Int.
  - Go maps are modelled as functions String → Option value: Go map reads
    are lookups and writes are pointwise updates; iteration order, which Go
    leaves unspecified, never matters for the properties below.
  - Side effects are made explicit: the logger's sink write is modelled by
    the list of records the call hands to the sink (empty or a singleton),
    and the middleware's interaction with the logger is modelled by the
    list of logger invocations it performs.
-/

namespace Noverna

/-- Severity enum of internal/logger/logger.go (DEBUG, INFO, WARN, ERROR,
FATAL declared by iota in this order). -/
inductive LogLevel where
  | DEBUG
  | INFO
  | WARN
  | ERROR
  | FATAL
deriving DecidableEq, Repr

/-- Integer value of a LogLevel, as assigned by the iota declaration; Go
compares levels by this integer. -/
def LogLevel.rank : LogLevel → Nat
  | .DEBUG => 0
  | .INFO => 1
  | .WARN => 2
  | .ERROR => 3
  | .FATAL => 4

/-- String method of LogLevel (logger.go 25-40). -/
def LogLevel.render : LogLevel → String
  | .DEBUG => "DEBUG"
  | .INFO => "INFO"
  | .WARN => "WARN"
  | .ERROR => "ERROR"
  | .FATAL => "FATAL"

/-- Field values stored in a logger field map (map[string]any in Go). The
values the logging code of this repository actually stores are strings,
integers and string-to-string maps (the headers map); all of them are
JSON-serializable, so rendering a record never fails for these values. -/
inductive Val where
  | str (s : String)
  | int (n : Int)
  | hmap (h : List (String × String))
deriving DecidableEq, Repr

/-- A Go map[string]any, modelled extensionally as a lookup function. -/
def FieldMap := String → Option Val

/-- The empty field map (a fresh make(map[string]any)). -/
def FieldMap.empty : FieldMap := fun _ => none

/-- Go map assignment m[k] = v. -/
def FieldMap.insert (m : FieldMap) (k : String) (v : Val) : FieldMap :=
  fun q => if q = k then some v else m q

/-- Merge performed inside Logger.log (logger.go 187-193): the base fields
are copied into the fresh entry map first and the call-supplied fields are
copied second, so a call-supplied binding overwrites a base binding. -/
def mergeFields (base call : FieldMap) : FieldMap :=
  fun k =>
    match call k with
    | some v => some v
    | none => base k

/-- Logger state (logger.go 63-71). The output sink is external; the lock
only guards the mutable state and is invisible in this sequential model.
Caller introspection depends on the runtime stack and is not modelled
beyond its toggle. -/
structure Logger where
  level : LogLevel
  jsonFormat : Bool
  colorize : Bool
  showCaller : Bool
  fields : FieldMap

/-- NewLogger (logger.go 73-82). -/
def NewLogger : Logger :=
  { level := .INFO
    jsonFormat := false
    colorize := true
    showCaller := true
    fields := FieldMap.empty }

/-- SetLevel (logger.go 84-89), state change only. -/
def Logger.setLevel (l : Logger) (level : LogLevel) : Logger :=
  { l with level := level }

/-- WithField (logger.go 119-124): mutates the base field map of the logger
instance and returns the same instance. -/
def Logger.withField (l : Logger) (k : String) (v : Val) : Logger :=
  { l with fields := l.fields.insert k v }

/-- A record as built by Logger.log (logger.go 180-193); timestamp is taken
from the ambient clock and is passed in explicitly here. Caller fields are
left out: they come from runtime stack inspection, and nothing below
depends on them. -/
structure Record where
  timestamp : String
  level : String
  message : String
  fields : FieldMap

/-- Logger.log (logger.go 172-207), with the write to the sink made
explicit: the result is the list of records written to the configured
sink by this call. The level test (line 176) drops the record before the
entry is built; otherwise exactly one record is rendered and written
(writeJSON and writeText each end in a single Fprintln to the sink, and
json.Marshal cannot fail on the Val value type, so rendering never loses
a record). -/
def Logger.log (l : Logger) (level : LogLevel) (message : String)
    (fields : FieldMap) (timestamp : String) : List Record :=
  if level.rank < l.level.rank then []
  else
    [{ timestamp := timestamp
       level := level.render
       message := message
       fields := mergeFields l.fields fields }]

/-- Logger.Debug (logger.go 249-255): forwards to log at DEBUG. -/
def Logger.debug (l : Logger) (message : String) (fields : FieldMap)
    (timestamp : String) : List Record :=
  l.log .DEBUG message fields timestamp

/-- Logger.Info (logger.go 257-263). -/
def Logger.info (l : Logger) (message : String) (fields : FieldMap)
    (timestamp : String) : List Record :=
  l.log .INFO message fields timestamp

/-- Logger.Warn (logger.go 265-271). -/
def Logger.warn (l : Logger) (message : String) (fields : FieldMap)
    (timestamp : String) : List Record :=
  l.log .WARN message fields timestamp

/-- Logger.Error (logger.go 273-279). -/
def Logger.error (l : Logger) (message : String) (fields : FieldMap)
    (timestamp : String) : List Record :=
  l.log .ERROR message fields timestamp

/-- setLogLevel of internal/config/config.go 166-182: maps the five
recognized strings to a level change on the default logger and returns an
error for anything else. The ok value carries the level that is set. -/
def setLogLevel (level : String) : Except String LogLevel :=
  if level = "debug" then .ok .DEBUG
  else if level = "info" then .ok .INFO
  else if level = "warn" then .ok .WARN
  else if level = "error" then .ok .ERROR
  else if level = "fatal" then .ok .FATAL
  else .error ("invalid log level: " ++ level)

/-- The log-level step at the tail of config.Init (config.go 96-99),
returning the error value Init hands back to its caller for this step:
when setLogLevel fails, Init logs the failure and executes return nil, so
the caller receives none (a nil error) either way. -/
def initLogLevelResult (level : String) : Option String :=
  match setLogLevel level with
  | .error _ => none
  | .ok _ => none

/-- Replacement loop of Go strings.Replace with n = -1 over character
lists: scan left to right, replace each non-overlapping occurrence of old.
Recursion is driven by a fuel counter bounded by the input length; each
step consumes at least one character when old is nonempty, so fuel equal
to the length of s computes the full replacement. -/
def replaceFuel : Nat → List Char → List Char → List Char → List Char
  | 0, s, _, _ => s
  | _ + 1, [], _, _ => []
  | fuel + 1, c :: rest, old, new =>
    if (c :: rest).take old.length = old then
      new ++ replaceFuel fuel ((c :: rest).drop old.length) old new
    else
      c :: replaceFuel fuel rest old new

/-- Go strings.Replace(s, old, new, -1): every non-overlapping occurrence
of old in s, scanned left to right, is replaced by new; an empty old
inserts new before every character and at the end. -/
def goReplaceAll (s old new : String) : String :=
  if old.data = [] then
    ⟨new.data ++ (s.data.map (fun c => c :: new.data)).flatten⟩
  else
    ⟨replaceFuel s.data.length s.data old.data new.data⟩

/-- Marker substituted for sensitive header values and body substrings in
c_logger.go. -/
def redactedMarker : String := "[REDACTED]"

/-- redactSensitiveData (c_logger.go 236-242): for each sensitive field in
order, replace every occurrence of the field in the running result with
the marker. -/
def redactSensitiveData (data : String) (sensitiveFields : List String) : String :=
  sensitiveFields.foldl (fun result field => goReplaceAll result field redactedMarker) data

/-- shouldSkipPath (c_logger.go 203-210): exact string equality against
each configured skip path. -/
def shouldSkipPath (path : String) (skipPaths : List String) : Bool :=
  skipPaths.any (fun skipPath => path == skipPath)

/-- shouldRedactHeader (c_logger.go 212-219): exact, case-sensitive string
equality against each configured redact header name. -/
def shouldRedactHeader (header : String) (redactHeaders : List String) : Bool :=
  redactHeaders.any (fun redactHeader => header == redactHeader)

/-- Result of readAndRestoreBody: the text captured by the middleware and
the body stream left for the downstream handler. -/
structure BodyReadResult where
  captured : String
  restoredBody : Option String
deriving DecidableEq, Repr

/-- readAndRestoreBody (c_logger.go 221-234). A nil body is returned
untouched with an empty capture. Otherwise ReadAll through
LimitReader(r.Body, maxSize) yields the first min(maxSize, len) bytes of
the stream (clamped at zero for a non-positive limit; reading an in-memory
body cannot fail), and r.Body is replaced by a buffer over exactly the
bytes that were read. -/
def readAndRestoreBody (body : Option String) (maxSize : Int) : BodyReadResult :=
  match body with
  | none => { captured := "", restoredBody := none }
  | some b =>
    let readBytes := b.take maxSize.toNat
    { captured := readBytes, restoredBody := some readBytes }

/-- One call the wrapped handler makes on the response writer it is
given: a status-setting call or a body write. -/
inductive RespAction where
  | writeHeader (code : Int)
  | write (data : String)
deriving DecidableEq, Repr

/-- Observable effect on the underlying (unwrapped) response channel:
the status codes forwarded to it and the bytes written through it. -/
structure UnderlyingResponse where
  headerCodes : List Int
  written : String
deriving DecidableEq, Repr

/-- A fresh underlying response channel with nothing sent yet. -/
def UnderlyingResponse.init : UnderlyingResponse :=
  { headerCodes := [], written := "" }

/-- State of the responseWriter wrapper (c_logger.go 55-74) together with
the underlying channel it forwards to. -/
structure ResponseWriterState where
  buffer : Option String
  statusCode : Int
  size : Int
  underlying : UnderlyingResponse
deriving DecidableEq, Repr

/-- Construction of the wrapper in LoggerMiddleware (c_logger.go 129-141):
the body buffer exists exactly when response-body logging is enabled, and
the latched status starts at http.StatusOK = 200. -/
def rwInit (logResponseBody : Bool) : ResponseWriterState :=
  { buffer := if logResponseBody then some "" else none
    statusCode := 200
    size := 0
    underlying := UnderlyingResponse.init }

/-- One wrapper call. WriteHeader (c_logger.go 62-65) stores the code in
statusCode and forwards it. Write (c_logger.go 67-74) mirrors the data
into the buffer when present, forwards it, and adds the number of bytes
the underlying writer reports (the full length for an in-memory channel)
to size. -/
def rwStep (rw : ResponseWriterState) (a : RespAction) : ResponseWriterState :=
  match a with
  | .writeHeader code =>
    { rw with
      statusCode := code
      underlying := { rw.underlying with
                      headerCodes := rw.underlying.headerCodes ++ [code] } }
  | .write data =>
    let rw1 :=
      match rw.buffer with
      | some b => { rw with buffer := some (b ++ data) }
      | none => rw
    { rw1 with
      underlying := { rw1.underlying with
                      written := rw1.underlying.written ++ data }
      size := rw1.size + (data.length : Int) }

/-- Running the wrapped handler against the wrapper (next.ServeHTTP(rw, r)
at c_logger.go 143), with the handler abstracted as the sequence of calls
it makes on the writer it receives. -/
def runWriter (logResponseBody : Bool) (handler : List RespAction) : ResponseWriterState :=
  handler.foldl rwStep (rwInit logResponseBody)

/-- Status codes a handler call sequence passes to WriteHeader, in order. -/
def statusCalls (handler : List RespAction) : List Int :=
  handler.filterMap fun a =>
    match a with
    | .writeHeader c => some c
    | .write _ => none

/-- One direct call on the raw response channel. -/
def rawApply (w : UnderlyingResponse) (a : RespAction) : UnderlyingResponse :=
  match a with
  | .writeHeader code => { w with headerCodes := w.headerCodes ++ [code] }
  | .write data => { w with written := w.written ++ data }

/-- Running the wrapped handler directly against the raw response channel
(next.ServeHTTP(w, r) on the skip branch, c_logger.go 86). -/
def rawRun (handler : List RespAction) : UnderlyingResponse :=
  handler.foldl rawApply UnderlyingResponse.init

/-- Header collection loop of LoggerMiddleware (c_logger.go 117-127):
every request header with a nonempty value list is entered into the entry
header map, with the first value, or the marker when the name matches the
redact list. Request headers carry unique names (Go http.Header is a
map), so this ordered association list is a faithful model of the map. -/
def buildHeaders (reqHeaders : List (String × List String))
    (redactHeaders : List String) : List (String × String) :=
  reqHeaders.filterMap (fun p =>
    match p.2 with
    | [] => none
    | v :: _ =>
      some (p.1, if shouldRedactHeader p.1 redactHeaders then redactedMarker else v))

/-- LoggerConfig (c_logger.go 15-24), without the logger handle: the
middleware's calls into the logger are modelled explicitly as emissions. -/
structure LoggerConfig where
  skipPaths : List String
  logRequestBody : Bool
  logResponseBody : Bool
  logHeaders : Bool
  maxBodySize : Int
  redactHeaders : List String
  redactBodyFields : List String

/-- An inbound request as the middleware observes it. The body is the byte
stream behind r.Body (none models a nil body). -/
structure Request where
  method : String
  urlPath : String
  url : String
  remoteAddr : String
  userAgent : String
  referer : String
  headers : List (String × List String)
  body : Option String

/-- LogEntry of the middleware (c_logger.go 39-53), with duration already
in milliseconds. -/
structure MwLogEntry where
  requestID : String
  method : String
  url : String
  remoteAddr : String
  userAgent : String
  referer : String
  requestBody : String
  responseBody : String
  statusCode : Int
  durationMs : Int
  size : Int
  headers : List (String × String)

/-- Status-to-severity switch of logRequest (c_logger.go 190-199). -/
def severityForStatus (statusCode : Int) : LogLevel :=
  if statusCode ≥ 500 then .ERROR
  else if statusCode ≥ 400 then .WARN
  else if statusCode ≥ 300 then .INFO
  else .INFO

/-- Composite message of logRequest (c_logger.go 188): METHOD URL STATUS. -/
def logRequestMessage (e : MwLogEntry) : String :=
  e.method ++ " " ++ e.url ++ " " ++ toString e.statusCode

/-- Field map built by logRequest (c_logger.go 164-186): eight
unconditional fields and four conditional ones. -/
def logRequestFields (e : MwLogEntry) : FieldMap :=
  let f := FieldMap.empty
  let f := f.insert "request_id" (.str e.requestID)
  let f := f.insert "method" (.str e.method)
  let f := f.insert "url" (.str e.url)
  let f := f.insert "remote_addr" (.str e.remoteAddr)
  let f := f.insert "user_agent" (.str e.userAgent)
  let f := f.insert "status_code" (.int e.statusCode)
  let f := f.insert "duration_ms" (.int e.durationMs)
  let f := f.insert "size_bytes" (.int e.size)
  let f := if e.referer ≠ "" then f.insert "referer" (.str e.referer) else f
  let f := if e.headers ≠ [] then f.insert "headers" (.hmap e.headers) else f
  let f := if e.requestBody ≠ "" then f.insert "request_body" (.str e.requestBody) else f
  let f := if e.responseBody ≠ "" then f.insert "response_body" (.str e.responseBody) else f
  f

/-- One call the middleware makes into the logger: the severity-specific
method chosen, the message and the field map handed over. -/
structure Emission where
  level : LogLevel
  message : String
  fields : FieldMap

/-- logRequest (c_logger.go 163-200): builds the field map and the
composite message and calls the severity-specific logger method selected
by the status-code switch. -/
def logRequest (e : MwLogEntry) : Emission :=
  { level := severityForStatus e.statusCode
    message := logRequestMessage e
    fields := logRequestFields e }

/-- Ambient inputs of one middleware run: the request id found in the chi
context (empty when absent), the time-derived fallback id
generateRequestID would produce, and the measured elapsed duration. -/
structure MwInput where
  ctxRequestID : String
  generatedID : String
  durationMs : Int

/-- Observable outcome of one middleware run: the logger calls it made,
the effect delivered on the underlying response channel, and the body
stream the downstream handler found in the request. -/
structure MwResult where
  emissions : List Emission
  underlying : UnderlyingResponse
  handlerBody : Option String

/-- The per-request handler LoggerMiddleware installs (c_logger.go
82-159). On a skip match the downstream handler runs against the raw
response channel and nothing is logged. Otherwise the request id is
resolved, the body is optionally captured and redacted (reading an
in-memory body cannot fail, so the error emission at c_logger.go 108-111
is unreachable here), headers are optionally collected, the handler runs
against the wrapper, the response body is optionally truncated and
redacted, and logRequest emits exactly one record. -/
def loggerMiddleware (cfg : LoggerConfig) (req : Request)
    (handler : List RespAction) (amb : MwInput) : MwResult :=
  if shouldSkipPath req.urlPath cfg.skipPaths then
    { emissions := []
      underlying := rawRun handler
      handlerBody := req.body }
  else
    let requestID := if amb.ctxRequestID = "" then amb.generatedID else amb.ctxRequestID
    let bodyRead :=
      if cfg.logRequestBody then readAndRestoreBody req.body cfg.maxBodySize
      else { captured := "", restoredBody := req.body }
    let requestBody :=
      if cfg.logRequestBody then redactSensitiveData bodyRead.captured cfg.redactBodyFields
      else ""
    let entryHeaders :=
      if cfg.logHeaders then buildHeaders req.headers cfg.redactHeaders else []
    let rw := runWriter cfg.logResponseBody handler
    let responseBody :=
      if cfg.logResponseBody then
        match rw.buffer with
        | some b =>
          let rb :=
            if (b.length : Int) > cfg.maxBodySize then
              b.take cfg.maxBodySize.toNat ++ "... [TRUNCATED]"
            else b
          redactSensitiveData rb cfg.redactBodyFields
        | none => ""
      else ""
    let entry : MwLogEntry :=
      { requestID := requestID
        method := req.method
        url := req.url
        remoteAddr := req.remoteAddr
        userAgent := req.userAgent
        referer := req.referer
        requestBody := requestBody
        responseBody := responseBody
        statusCode := rw.statusCode
        durationMs := amb.durationMs
        size := rw.size
        headers := entryHeaders }
    { emissions := [logRequest entry]
      underlying := rw.underlying
      handlerBody := bodyRead.restoredBody }

/-! Theorems. -/

/-- C2: every emit call at severity L writes exactly one record to the
configured sink when L is at or above the logger threshold and zero
records when L is below it; the drop happens before the record is built. -/
theorem log_write_count (l : Logger) (lvl : LogLevel) (msg : String)
    (f : FieldMap) (ts : String) :
    (l.log lvl msg f ts).length = if l.level.rank ≤ lvl.rank then 1 else 0 := by
  unfold Logger.log
  by_cases h : lvl.rank < l.level.rank
  · rw [if_pos h, if_neg (by omega)]
    rfl
  · rw [if_neg h, if_pos (by omega)]
    rfl

/-- C4 evaluated at the failing input: setLogLevel rejects the invalid
severity string with a non-nil error, but the corresponding step of
config.Init swallows it and yields a nil error to the caller of Init. -/
theorem init_swallows_invalid_log_level :
    setLogLevel "verbose" = .error "invalid log level: verbose" ∧
    initLogLevelResult "verbose" = none := by
  exact ⟨rfl, rfl⟩

/-- C5: the severity of the record logRequest emits is selected exactly by
the status bucket of the entry (ERROR at 500 and above, WARN at 400-499,
INFO at 300-399, INFO otherwise), with the six boundary instances. -/
theorem logRequest_severity_buckets (e : MwLogEntry) :
    ((logRequest e).level =
      if e.statusCode ≥ 500 then LogLevel.ERROR
      else if 400 ≤ e.statusCode ∧ e.statusCode ≤ 499 then LogLevel.WARN
      else if 300 ≤ e.statusCode ∧ e.statusCode ≤ 399 then LogLevel.INFO
      else LogLevel.INFO) ∧
    severityForStatus 500 = .ERROR ∧ severityForStatus 499 = .WARN ∧
    severityForStatus 400 = .WARN ∧ severityForStatus 399 = .INFO ∧
    severityForStatus 300 = .INFO ∧ severityForStatus 200 = .INFO := by
  refine ⟨?_, by decide, by decide, by decide, by decide, by decide, by decide⟩
  show severityForStatus e.statusCode = _
  unfold severityForStatus
  split_ifs <;> first | rfl | omega

/-- C8: body redaction is plain substring replacement of each configured
field name by the marker: the password scenario yields the redacted key,
and every literal occurrence is replaced, not only the first. -/
theorem redact_body_scenario :
    redactSensitiveData "\x7b\"password\":\"123\"\x7d" ["password"] =
      "\x7b\"[REDACTED]\":\"123\"\x7d" ∧
    redactSensitiveData "password=1;password=2" ["password"] =
      "[REDACTED]=1;[REDACTED]=2" := by
  exact ⟨rfl, rfl⟩


theorem getLast_getD_cons (c d : Int) (l : List Int) :
    ((c :: l).getLast?.getD d) = l.getLast?.getD c := by
  induction l generalizing c with
  | nil => rfl
  | cons x t ih =>
    rw [List.getLast?_cons_cons]
    have h : (x :: t).getLast?.isSome := by
      rw [List.getLast?_isSome]
      simp
    obtain ⟨y, hy⟩ := Option.isSome_iff_exists.mp h
    rw [hy]
    rfl

theorem foldl_rwStep_statusCode (handler : List RespAction) (s : ResponseWriterState) :
    (handler.foldl rwStep s).statusCode = (statusCalls handler).getLast?.getD s.statusCode := by
  induction handler generalizing s with
  | nil => rfl
  | cons a t ih =>
    cases a with
    | writeHeader c =>
      rw [List.foldl_cons, ih]
      have hs : statusCalls (RespAction.writeHeader c :: t) = c :: statusCalls t := by
        simp [statusCalls]
      rw [hs, getLast_getD_cons]
      rfl
    | write data =>
      rw [List.foldl_cons, ih]
      have hs : statusCalls (RespAction.write data :: t) = statusCalls t := by
        simp [statusCalls]
      have hpres : (rwStep s (RespAction.write data)).statusCode = s.statusCode := by
        unfold rwStep
        cases h : s.buffer <;> simp [h]
      rw [hs, hpres]

theorem logRequestFields_status_code (e : MwLogEntry) :
    logRequestFields e "status_code" = some (.int e.statusCode) := by
  simp only [logRequestFields]
  simp [apply_ite (fun m : FieldMap => m "status_code"), FieldMap.insert]


/-- C3 counterexample: a handler that calls WriteHeader(200) and then
WriteHeader(404) leaves 404 in the wrapper, and the emitted entry records
status 404, not the 200 of the first status-setting call. -/
theorem status_first_write_counterexample :
    (runWriter false [.writeHeader 200, .writeHeader 404]).statusCode = 404 ∧
    ((loggerMiddleware
        { skipPaths := [], logRequestBody := false, logResponseBody := false,
          logHeaders := false, maxBodySize := 1024, redactHeaders := [],
          redactBodyFields := [] }
        { method := "GET", urlPath := "/x", url := "/x", remoteAddr := "",
          userAgent := "", referer := "", headers := [], body := none }
        [.writeHeader 200, .writeHeader 404]
        { ctxRequestID := "r1", generatedID := "g", durationMs := 0 }).emissions.map
      (fun em => em.fields "status_code")) = [some (Val.int 404)] ∧
    (404 : Int) ≠ 200 := by
  refine ⟨rfl, ?_, by decide⟩
  rfl

/-- C3 amended: the wrapper records the argument of the LAST status-setting
call the handler makes (200 when it makes none): last write wins. -/
theorem status_last_write_wins (logResponseBody : Bool) (handler : List RespAction) :
    (runWriter logResponseBody handler).statusCode =
      (statusCalls handler).getLast?.getD 200 := by
  unfold runWriter
  rw [foldl_rwStep_statusCode]
  rfl

/-- C10: a non-skipped request whose handler makes no status-setting call
is logged with status code 200 and at severity INFO. -/
theorem default_status_and_severity (cfg : LoggerConfig) (req : Request)
    (handler : List RespAction) (amb : MwInput)
    (hskip : shouldSkipPath req.urlPath cfg.skipPaths = false)
    (hnost : statusCalls handler = []) :
    (loggerMiddleware cfg req handler amb).emissions.map
        (fun em => (em.level, em.fields "status_code")) =
      [(LogLevel.INFO, some (Val.int 200))] := by
  have hstat : (runWriter cfg.logResponseBody handler).statusCode = 200 := by
    unfold runWriter
    rw [foldl_rwStep_statusCode, hnost]
    rfl
  simp only [loggerMiddleware, hskip]
  simp only [Bool.false_eq_true, if_false, List.map_cons, List.map_nil]
  simp only [logRequest, logRequestFields_status_code, hstat]
  simp [severityForStatus, logRequestMessage]

theorem default_status_and_severity_witness :
    (loggerMiddleware
        { skipPaths := ["/health"], logRequestBody := false, logResponseBody := false,
          logHeaders := false, maxBodySize := 1024, redactHeaders := [],
          redactBodyFields := [] }
        { method := "GET", urlPath := "/x", url := "/x", remoteAddr := "",
          userAgent := "", referer := "", headers := [], body := none }
        [.write "hi"]
        { ctxRequestID := "r1", generatedID := "g", durationMs := 0 }).emissions.map
        (fun em => (em.level, em.fields "status_code")) =
      [(LogLevel.INFO, some (Val.int 200))] :=
  default_status_and_severity _ _ _ _ (by decide) (by decide)


/-- C1 counterexample: with maxBodySize 2 and an inbound body "abc", the
reconstructed body the downstream handler reads is "ab", not the original
body, both at the capture helper and through the middleware. -/
theorem body_roundtrip_counterexample :
    (readAndRestoreBody (some "abc") 2).restoredBody = some "ab" ∧
    some "ab" ≠ some "abc" ∧
    (loggerMiddleware
        { skipPaths := [], logRequestBody := true, logResponseBody := false,
          logHeaders := false, maxBodySize := 2, redactHeaders := [],
          redactBodyFields := [] }
        { method := "POST", urlPath := "/x", url := "/x", remoteAddr := "",
          userAgent := "", referer := "", headers := [], body := some "abc" }
        [] { ctxRequestID := "r1", generatedID := "g", durationMs := 0 }).handlerBody
      = some "ab" := by
  refine ⟨rfl, by decide, rfl⟩

/-- C1 amended: when the inbound body is no longer than maxBodySize, the
capture reads the whole body and the reconstructed stream the handler
reads is identical to the original body; a longer body is truncated to
its first maxBodySize bytes (see the counterexample). -/
theorem body_roundtrip_within_limit (cfg : LoggerConfig) (req : Request)
    (handler : List RespAction) (amb : MwInput) (b : String)
    (hskip : shouldSkipPath req.urlPath cfg.skipPaths = false)
    (hlog : cfg.logRequestBody = true)
    (hbody : req.body = some b)
    (hlen : (b.length : Int) ≤ cfg.maxBodySize) :
    (loggerMiddleware cfg req handler amb).handlerBody = some b ∧
    (readAndRestoreBody req.body cfg.maxBodySize).captured = b := by
  have hdata : b.length = b.data.length := rfl
  have hle : b.data.length ≤ cfg.maxBodySize.toNat := by omega
  have htake : b.take cfg.maxBodySize.toNat = b := by
    rw [String.take_eq, List.take_of_length_le hle]
  constructor
  · simp only [loggerMiddleware, hskip, Bool.false_eq_true, if_false, hlog, if_true, hbody]
    simp [readAndRestoreBody, htake]
  · rw [hbody]
    simp [readAndRestoreBody, htake]

theorem body_roundtrip_within_limit_witness :
    (loggerMiddleware
        { skipPaths := [], logRequestBody := true, logResponseBody := false,
          logHeaders := false, maxBodySize := 1024, redactHeaders := [],
          redactBodyFields := [] }
        { method := "POST", urlPath := "/x", url := "/x", remoteAddr := "",
          userAgent := "", referer := "", headers := [], body := some "abc" }
        [] { ctxRequestID := "r1", generatedID := "g", durationMs := 0 }).handlerBody
      = some "abc" ∧
    (readAndRestoreBody (some "abc") 1024).captured = "abc" :=
  body_roundtrip_within_limit _ _ _ _ "abc" (by decide) rfl rfl (by decide)

/-- C6: a request whose path matches a configured skip path runs the
downstream handler against the raw response channel with no log emission,
and a request matching no skip path produces exactly one emission. -/
theorem skip_paths_control_logging (cfg : LoggerConfig) (req : Request)
    (handler : List RespAction) (amb : MwInput) :
    (shouldSkipPath req.urlPath cfg.skipPaths = true →
      (loggerMiddleware cfg req handler amb).emissions = [] ∧
      (loggerMiddleware cfg req handler amb).underlying = rawRun handler) ∧
    (shouldSkipPath req.urlPath cfg.skipPaths = false →
      (loggerMiddleware cfg req handler amb).emissions.length = 1) := by
  constructor
  · intro h
    constructor <;> simp [loggerMiddleware, h]
  · intro h
    simp [loggerMiddleware, h]

theorem skip_paths_control_logging_witness :
    ((loggerMiddleware
        { skipPaths := ["/health"], logRequestBody := false, logResponseBody := false,
          logHeaders := false, maxBodySize := 1024, redactHeaders := [],
          redactBodyFields := [] }
        { method := "GET", urlPath := "/health", url := "/health", remoteAddr := "",
          userAgent := "", referer := "", headers := [], body := none }
        [.write "ok"]
        { ctxRequestID := "r1", generatedID := "g", durationMs := 0 }).emissions = [] ∧
      (loggerMiddleware
        { skipPaths := ["/health"], logRequestBody := false, logResponseBody := false,
          logHeaders := false, maxBodySize := 1024, redactHeaders := [],
          redactBodyFields := [] }
        { method := "GET", urlPath := "/health", url := "/health", remoteAddr := "",
          userAgent := "", referer := "", headers := [], body := none }
        [.write "ok"]
        { ctxRequestID := "r1", generatedID := "g", durationMs := 0 }).underlying
        = rawRun [.write "ok"]) ∧
    (loggerMiddleware
        { skipPaths := ["/health"], logRequestBody := false, logResponseBody := false,
          logHeaders := false, maxBodySize := 1024, redactHeaders := [],
          redactBodyFields := [] }
        { method := "GET", urlPath := "/api", url := "/api", remoteAddr := "",
          userAgent := "", referer := "", headers := [], body := none }
        [.write "ok"]
        { ctxRequestID := "r1", generatedID := "g", durationMs := 0 }).emissions.length
      = 1 :=
  ⟨(skip_paths_control_logging _ _ _ _).1 (by decide),
   (skip_paths_control_logging _ _ _ _).2 (by decide)⟩

/-- C7: when a header name has a value and is an exact, case-sensitive
match of a configured redact name, the entry header map carries the fixed
marker for it; a name matching no redact entry passes its value through
unchanged. -/
theorem header_redaction_exact (reqHeaders : List (String × List String))
    (redact : List String) (n v : String) (vs : List String)
    (hlook : List.lookup n reqHeaders = some (v :: vs)) :
    List.lookup n (buildHeaders reqHeaders redact) =
      some (if shouldRedactHeader n redact then redactedMarker else v) := by
  induction reqHeaders with
  | nil => simp [List.lookup] at hlook
  | cons p t ih =>
    obtain ⟨k, vals⟩ := p
    by_cases hnk : (n == k) = true
    · have hk : n = k := eq_of_beq hnk
      subst hk
      cases vals with
      | nil => simp [List.lookup] at hlook
      | cons w ws =>
        simp only [List.lookup, beq_self_eq_true] at hlook
        have hw : w = v := by
          injection hlook with h1
          exact (List.cons.injEq w ws v vs).mp h1 |>.1
        subst hw
        simp [buildHeaders, List.filterMap_cons, List.lookup]
    · have hnk' : (n == k) = false := by
        cases h : n == k
        · rfl
        · exact absurd h hnk
      simp only [List.lookup, hnk'] at hlook
      cases vals with
      | nil =>
        simp only [buildHeaders, List.filterMap_cons]
        exact ih hlook
      | cons w ws =>
        simp only [buildHeaders, List.filterMap_cons]
        simp only [List.lookup, hnk']
        exact ih hlook

theorem header_redaction_exact_witness :
    List.lookup "Authorization"
        (buildHeaders [("Authorization", ["Bearer t0"]), ("Accept", ["text/html"])]
          ["Authorization", "Cookie"]) = some "[REDACTED]" ∧
    List.lookup "Accept"
        (buildHeaders [("Authorization", ["Bearer t0"]), ("Accept", ["text/html"])]
          ["Authorization", "Cookie"]) = some "text/html" := by
  constructor
  · have h := header_redaction_exact
      [("Authorization", ["Bearer t0"]), ("Accept", ["text/html"])]
      ["Authorization", "Cookie"] "Authorization" "Bearer t0" [] (by decide)
    simpa using h
  · have h := header_redaction_exact
      [("Authorization", ["Bearer t0"]), ("Accept", ["text/html"])]
      ["Authorization", "Cookie"] "Accept" "text/html" [] (by decide)
    simpa using h

/-- C9: the field set of an emitted record is the merge of the logger's
persistent base fields with the call-supplied fields, the call-supplied
binding wins on key collision, the base binding passes through where the
call is silent, and WithField adds a binding to the persistent base field
set of the logger instance. -/
theorem fields_merge_and_persist (l : Logger) (k : String) (v : Val)
    (call : FieldMap) (lvl : LogLevel) (msg ts : String) :
    (∀ rec ∈ l.log lvl msg call ts, rec.fields = mergeFields l.fields call) ∧
    (∀ q w, call q = some w → mergeFields l.fields call q = some w) ∧
    (∀ q, call q = none → mergeFields l.fields call q = l.fields q) ∧
    ((l.withField k v).fields k = some v) := by
  refine ⟨?_, ?_, ?_, ?_⟩
  · intro rec hrec
    unfold Logger.log at hrec
    split at hrec
    · simp at hrec
    · simp only [List.mem_singleton] at hrec
      rw [hrec]
  · intro q w h
    unfold mergeFields
    rw [h]
  · intro q h
    unfold mergeFields
    rw [h]
  · unfold Logger.withField FieldMap.insert
    simp

theorem fields_merge_and_persist_witness :
    mergeFields (NewLogger.withField "base" (Val.str "b")).fields
        (FieldMap.empty.insert "base" (Val.str "call")) "base" = some (Val.str "call") ∧
    (NewLogger.withField "base" (Val.str "b")).fields "base" = some (Val.str "b") :=
  ⟨(fields_merge_and_persist (NewLogger.withField "base" (Val.str "b")) "base"
      (Val.str "b") (FieldMap.empty.insert "base" (Val.str "call")) .INFO "m" "t").2.1
      "base" (Val.str "call") rfl,
   (fields_merge_and_persist NewLogger "base" (Val.str "b")
      (FieldMap.empty.insert "base" (Val.str "call")) .INFO "m" "t").2.2.2⟩

end Noverna
